import Mathlib

/-!
Verification development for the `ec2-ena-express-lab` benchmark orchestration
and comparative metrics pipeline.

The shell code under scrutiny is embedded shallowly:

* File and pipeline text is modelled as lists of lines, each line a `List Char`
  (`Str`).  Working directly on character lists keeps every definition
  kernel-evaluable, so concrete scenarios can be settled with `decide`/`rfl`.
* `grep -oP "pat\K[0-9.]+"` is modelled by `grepScan`, which collects, for every
  occurrence of the literal pattern, the maximal following run of `[0-9.]`
  characters (PCRE `.` inside the fixed label patterns is modelled as the
  literal dot character; no claim depends on the wildcard reading).
* `awk '/pat/ {print $6}' file` is modelled by filtering the lines containing
  the pattern and printing the sixth whitespace-separated field (empty when the
  line has fewer than six fields).  awk exits with status 0 whenever its input
  file is readable, whether or not any line matched; this is reflected in the
  `Capture.status` field and is essential to the behaviour of the `||` chains.
* A shell command substitution `$(a || b || echo "N/A")` is modelled by
  `cmdOr` on `Capture` values (stdout lines plus exit status); the final
  variable value is the newline join of the captured lines.
* awk floating-point arithmetic is modelled by exact unnormalized integer
  fractions (`Q`); `printf "%.2f"` and awk's default number printing are
  modelled by exact rational rounding and decimal rendering (`fmt2`,
  `renderAwk`).  No claim depends on the precise tie-breaking of binary
  floating point formatting.
-/

set_option maxRecDepth 8000

abbrev Str := List Char

def isWS (c : Char) : Bool := c = ' ' ∨ c = '\t' ∨ c = '\n'

def isDigitCh (c : Char) : Bool := '0' ≤ c ∧ c ≤ '9'

/-- characters matched by the `[0-9.]+` part of the extraction regexes -/
def isNumDot (c : Char) : Bool := isDigitCh c ∨ c = '.'

/-- decimal digits of a natural number (fuel-based so the kernel can reduce it) -/
def natDigitsF : Nat → Nat → Str
  | 0, _ => []
  | fuel+1, n =>
    if n < 10 then [Char.ofNat (48 + n)]
    else natDigitsF fuel (n / 10) ++ [Char.ofNat (48 + n % 10)]

def natDigits (n : Nat) : Str := natDigitsF (n + 1) n

def digitsToNat (cs : Str) : Nat :=
  cs.foldl (fun a c => a * 10 + (c.toNat - 48)) 0

/-- split on a separator character, keeping empty fields (like `cut`) -/
def splitOnCharAux (sep : Char) : Str → Str → List Str
  | [], acc => [acc.reverse]
  | c :: rest, acc =>
    if c = sep then acc.reverse :: splitOnCharAux sep rest []
    else splitOnCharAux sep rest (c :: acc)

def splitOnChar (sep : Char) (cs : Str) : List Str := splitOnCharAux sep cs []

/-- split on runs of whitespace, dropping empty fields (awk's default field
splitting) -/
def splitWSAux : Str → Str → List Str
  | [], acc => if acc.isEmpty then [] else [acc.reverse]
  | c :: rest, acc =>
    if isWS c then
      (if acc.isEmpty then splitWSAux rest [] else acc.reverse :: splitWSAux rest [])
    else splitWSAux rest (c :: acc)

def splitWS (cs : Str) : List Str := splitWSAux cs []

/-- join lines with newlines (the value of a command substitution, which strips
the final trailing newline) -/
def joinNL (ls : List Str) : Str := List.intercalate ['\n'] ls

/-- does the literal pattern occur as a contiguous substring? -/
def hasOcc (pat : Str) : Str → Bool
  | [] => pat.isEmpty
  | c :: rest => pat.isPrefixOf (c :: rest) || hasOcc pat rest

/-- all matches of `grep -oP "pat\K[0-9.]+"` on a single line: at each
occurrence of the literal `pat` that is followed by a nonempty run of `[0-9.]`
characters, emit that run, and continue scanning after it (non-overlapping
matches).  Fuel-based so the kernel can evaluate it. -/
def grepScanF (pat : Str) : Nat → Str → List Str
  | 0, _ => []
  | _+1, [] => []
  | fuel+1, c :: rest =>
    if pat.isPrefixOf (c :: rest) then
      let run := ((c :: rest).drop pat.length).takeWhile isNumDot
      if run.isEmpty then grepScanF pat fuel rest
      else run :: grepScanF pat fuel (((c :: rest).drop pat.length).drop run.length)
    else grepScanF pat fuel rest

def grepScan (pat cs : Str) : List Str := grepScanF pat cs.length cs

/-- the suffix just after the first occurrence of `lit`, if any -/
def afterFirst (lit : Str) : Str → Option Str
  | [] => if lit.isPrefixOf [] then some [] else none
  | c :: rest =>
    if lit.isPrefixOf (c :: rest) then some ((c :: rest).drop lit.length)
    else afterFirst lit rest

/-- the digit run after the last occurrence of `sep` that is directly followed
by a nonempty `[0-9.]` run (the greedy `.*sep\K[0-9.]+` reading) -/
def lastRunAfter (sep : Str) : Str → Option Str
  | [] => none
  | c :: rest =>
    match lastRunAfter sep rest with
    | some r => some r
    | none =>
      if sep.isPrefixOf (c :: rest) then
        let run := ((c :: rest).drop sep.length).takeWhile isNumDot
        if run.isEmpty then none else some run
      else none

example : grepScan "avg-lat=".data "sockperf: avg-lat=35.421 x".data = ["35.421".data] := by decide

example : grepScan "avg-lat=".data "nothing here".data = [] := by decide

example : splitWS "sockperf: ---> percentile 50.000 = 34.912".data =
    ["sockperf:".data, "--->".data, "percentile".data, "50.000".data, "=".data, "34.912".data] := by
  decide

example : natDigits 10042 = "10042".data := by decide

/-!  ## awk numeric coercion and number rendering

awk computes with floating-point numbers.  All values that reach arithmetic in
this pipeline are short decimal literals extracted via `[0-9.]` runs, so the
arithmetic is modelled exactly with unnormalized integer fractions (`Q`); this
keeps every operation kernel-evaluable (`ℚ` normalization via `Nat.gcd` does
not reduce in the kernel).  All constructors below keep `den` positive. -/

structure Q where
  num : ℤ
  den : ℤ
deriving DecidableEq

def qOfInt (n : ℤ) : Q := ⟨n, 1⟩

def qAdd (a b : Q) : Q := ⟨a.num * b.den + b.num * a.den, a.den * b.den⟩

def qSub (a b : Q) : Q := ⟨a.num * b.den - b.num * a.den, a.den * b.den⟩

def qMul (a b : Q) : Q := ⟨a.num * b.num, a.den * b.den⟩

def qDiv (a b : Q) : Q := ⟨a.num * b.den, a.den * b.num⟩

/-- `q > 0`, valid because `den` is positive by construction -/
def qPos (q : Q) : Bool := 0 < q.num

def qIsZero (q : Q) : Bool := q.num = 0

/-- `round (a / b)` (half up) for `b > 0` -/
def roundDivHalfUp (a b : ℤ) : ℤ := Int.fdiv (2 * a + b) (2 * b)

/-- awk's numeric coercion of a string (`-v var="..."` followed by arithmetic
use): skip leading whitespace, then read an optional integer part and an
optional fractional part.  Any non-numeric text (such as `N/A`, the empty
string, or captured debug text) coerces to 0.  The values produced by the
extraction chains are runs of `[0-9.]`, so signs and exponents never occur and
are not modelled. -/
def awkNum (cs : Str) : Q :=
  let cs := cs.dropWhile isWS
  let ip := cs.takeWhile isDigitCh
  let r1 := cs.dropWhile isDigitCh
  let fp := match r1 with
            | '.' :: r2 => r2.takeWhile isDigitCh
            | _ => []
  ⟨(digitsToNat ip : ℤ) * 10 ^ fp.length + (digitsToNat fp : ℤ), 10 ^ fp.length⟩

def intStr (n : ℤ) : Str :=
  if n < 0 then '-' :: natDigits n.natAbs else natDigits n.natAbs

/-- `printf "%.2f"` modelled with exact rational rounding: render
`round (q * 100)` with two decimal places. -/
def fmt2 (q : Q) : Str :=
  let n : ℤ := roundDivHalfUp (q.num * 100) q.den
  let m := n.natAbs
  let frac := m % 100
  (if n < 0 then ['-'] else []) ++ natDigits (m / 100) ++ ['.'] ++
    (if frac < 10 then '0' :: natDigits frac else natDigits frac)

/-- awk's default `print` of a number: integers are printed without a decimal
point; non-integers are printed via `OFMT` (`%.6g`), modelled here as exact
rounding to six decimal places (no claim depends on this formatting). -/
def renderAwk (q : Q) : Str :=
  if q.num % q.den = 0 then intStr (q.num / q.den)
  else
    let n : ℤ := roundDivHalfUp (q.num * 1000000) q.den
    let m := n.natAbs
    (if n < 0 then ['-'] else []) ++ natDigits (m / 1000000) ++ ['.'] ++ natDigits (m % 1000000)

example : awkNum "35.421".data = ⟨35421, 1000⟩ := by decide

example : awkNum "N/A".data = ⟨0, 1⟩ := by decide

example : fmt2 ⟨25, 2⟩ = "12.50".data := by decide

example : renderAwk ⟨0, 1⟩ = "0".data := by decide

/-!  ## captured command output and `||` chains  -/

/-- stdout (as lines) and exit status of one command in a substitution -/
structure Capture where
  out : List Str
  status : Nat

/-- `a || b`: `b` runs only when `a` failed; the substitution captures the
stdout of whichever commands ran. -/
def cmdOr (a b : Capture) : Capture :=
  if a.status = 0 then a else ⟨a.out ++ b.out, b.status⟩

/-- `echo "N/A"` -/
def echoNA : Capture := ⟨["N/A".data], 0⟩

/-- `grep -oP "pat\K[0-9.]+" file`: one output line per match, exit status 0
iff at least one line matched -/
def grepCmd (pat : Str) (lines : List Str) : Capture :=
  let ms := (lines.map (grepScan pat)).flatten
  ⟨ms, if ms.isEmpty then 1 else 0⟩

/-- `grep -oP "a.*sep\K[0-9.]+"` (one wildcard): per line, the digit run after
the last `sep` that follows the first occurrence of `a` -/
def wild1Cmd (a sep : Str) (lines : List Str) : Capture :=
  let ms := (lines.map (fun l => ((afterFirst a l).bind (lastRunAfter sep)).toList)).flatten
  ⟨ms, if ms.isEmpty then 1 else 0⟩

/-- `grep -oP "a.*b.*sep\K[0-9.]+"` (two wildcards) -/
def wild2Cmd (a b sep : Str) (lines : List Str) : Capture :=
  let ms := (lines.map (fun l =>
    (((afterFirst a l).bind (afterFirst b)).bind (lastRunAfter sep)).toList)).flatten
  ⟨ms, if ms.isEmpty then 1 else 0⟩

/-- awk's `$6` on a line: empty when the line has fewer than six fields -/
def field6 (l : Str) : Str := (splitWS l).getD 5 []

/-- `awk '/pat/ {print $6}' file`: prints `$6` of every matching line and —
crucially — exits with status 0 whenever the input file is readable, whether or
not any line matched. -/
def awkCmd (pat : Str) (lines : List Str) : Capture :=
  ⟨(lines.filter (fun l => hasOcc pat l)).map field6, 0⟩

/-!  ## the Metric Extractor (`extract_metrics`, part_002 lines 149-207)  -/

/-- the value of the average-latency fallback chain (part_002 lines 175-182):
seven `grep -oP` patterns strung together with `||`, ending in `echo "N/A"`.
`grep` fails (status 1) when no line matched, so this chain genuinely falls
through to the next pattern. -/
def avgCapture (lines : List Str) : Capture :=
  cmdOr (grepCmd "avg-lat=".data lines)
    (cmdOr (grepCmd "Summary: Latency is ".data lines)
      (cmdOr (wild1Cmd "Average latency".data ": ".data lines)
        (cmdOr (wild2Cmd "avg".data "latency".data ": ".data lines)
          (cmdOr (wild1Cmd "average".data ": ".data lines)
            (cmdOr (grepCmd "latency average: ".data lines)
              (cmdOr (grepCmd "average = ".data lines) echoNA))))))

def extractAvg (lines : List Str) : Str := joinNL (avgCapture lines).out

def pat50a : Str := "sockperf: ---> percentile 50.000 =".data
def pat50b : Str := "sockperf: ---> percentile 50.00 =".data
def pat50c : Str := "sockperf: ---> percentile 50.0 =".data
def pat50d : Str := "sockperf: ---> percentile 50 =".data

/-- the p50 fallback chain (part_002 lines 186-190): four `awk` commands and a
final `echo "N/A"` strung together with `||`.  Since awk always exits 0 on a
readable file, the chain never proceeds past the first command. -/
def p50Capture (lines : List Str) : Capture :=
  cmdOr (awkCmd pat50a lines)
    (cmdOr (awkCmd pat50b lines)
      (cmdOr (awkCmd pat50c lines)
        (cmdOr (awkCmd pat50d lines) echoNA)))

def extractP50 (lines : List Str) : Str := joinNL (p50Capture lines).out

def pat99a : Str := "sockperf: ---> percentile 99.000 =".data
def pat99b : Str := "sockperf: ---> percentile 99.00 =".data
def pat99c : Str := "sockperf: ---> percentile 99.0 =".data
def pat99d : Str := "sockperf: ---> percentile 99 =".data

/-- the p99 fallback chain (part_002 lines 194-198) -/
def p99Capture (lines : List Str) : Capture :=
  cmdOr (awkCmd pat99a lines)
    (cmdOr (awkCmd pat99b lines)
      (cmdOr (awkCmd pat99c lines)
        (cmdOr (awkCmd pat99d lines) echoNA)))

def extractP99 (lines : List Str) : Str := joinNL (p99Capture lines).out

def patMax : Str := "sockperf: ---> <MAX> observation =".data

/-- the max-latency chain (part_002 lines 202-203): one awk command plus
`echo "N/A"` -/
def maxCapture (lines : List Str) : Capture :=
  cmdOr (awkCmd patMax lines) echoNA

def extractMax (lines : List Str) : Str := joinNL (maxCapture lines).out

/-- the `N/A` sentinel -/
def naStr : Str := "N/A".data

/-- byte size of the output file as computed by `wc -c` (one newline per line;
the content handled here is ASCII) -/
def fileSize (lines : List Str) : Nat := (lines.map (fun l => l.length + 1)).sum

def dbg (s : Str) : Str := "DEBUG: ".data ++ s

/-- the stdout produced by one call of `extract_metrics` (part_002 lines
149-207).  `file = none` models a missing output file (the `[ ! -f ... ]`
early return).  `debug_echo` writes to stdout, so in debug mode all DEBUG
lines are part of the function's captured output — values whose own text spans
several output lines are represented inside a single `Str` containing `'\n'`,
which is equivalent after the final newline join. -/
def extract_metrics (debug : Bool) (path : Str) (file : Option (List Str)) (tuple : Str) :
    List Str :=
  let d1 := if debug then [dbg ("Extracting metrics from ".data ++ path ++ " for ".data ++ tuple)] else []
  match file with
  | none =>
    d1 ++ (if debug then [dbg ("File ".data ++ path ++ " does not exist".data)] else []) ++
      [tuple ++ ";N/A;N/A;N/A;N/A".data]
  | some lines =>
    let d2 := if debug then [dbg ("File size: ".data ++ natDigits (fileSize lines) ++ " bytes".data)] else []
    let d3 := if debug then
        dbg "File content (first 20 lines):".data :: (lines.take 20).map (fun l => dbg ("  ".data ++ l))
      else []
    let avg := extractAvg lines
    let d4 := if debug then [dbg ("avg_latency = ".data ++ avg)] else []
    let p50 := extractP50 lines
    let d5 := if debug then [dbg ("percentile_50 = ".data ++ p50)] else []
    let p99 := extractP99 lines
    let d6 := if debug then [dbg ("percentile_99 = ".data ++ p99)] else []
    let mx := extractMax lines
    let d7 := if debug then [dbg ("max_latency = ".data ++ mx)] else []
    d1 ++ d2 ++ d3 ++ d4 ++ d5 ++ d6 ++ d7 ++
      [tuple ++ [';'] ++ avg ++ [';'] ++ p50 ++ [';'] ++ p99 ++ [';'] ++ mx]

/-- the shell variable `X=$(extract_metrics file tuple)`: the newline join of
everything the function wrote to stdout -/
def captureExtract (debug : Bool) (path : Str) (file : Option (List Str)) (tuple : Str) : Str :=
  joinNL (extract_metrics debug path file tuple)

/-- `cut -d';' -fN` on one line: a line that contains no delimiter is printed
whole; otherwise the Nth field (empty when there are fewer fields) -/
def cutLine (n : Nat) (l : Str) : Str :=
  let fs := splitOnChar ';' l
  if fs.length = 1 then l else fs.getD (n - 1) []

/-- `echo "$s" | cut -d';' -fN`: `cut` applied to every line of the value -/
def cutF (s : Str) (n : Nat) : Str :=
  joinNL ((splitOnChar '\n' s).map (cutLine n))

/-!  ## the Comparative Aggregator: per-trial improvement percentages  -/

/-- the per-trial improvement computation of the UDP benchmark script
(part_002 lines 267-272 and analogues): both operands must differ from `N/A`
and be nonempty; then
`awk 'BEGIN {if(eni > 0) printf "%.2f", ((eni-srd)/eni)*100; else print "N/A"}'`. -/
def udpImprovement (eni srd : Str) : Str :=
  if eni ≠ naStr ∧ srd ≠ naStr ∧ eni ≠ [] ∧ srd ≠ [] then
    let e := awkNum eni
    let s := awkNum srd
    if qPos e then fmt2 (qMul (qDiv (qSub e s) e) (qOfInt 100)) else naStr
  else naStr

/-- the per-trial improvement computation of the legacy TCP script
(ena_express_latency_benchmark.sh lines 119-136): both operands must differ
from `N/A`; then `awk "BEGIN {print (($eni-$srd)/$eni)*100}"` with no guard on
a zero baseline.  When the baseline is zero, awk on the scripts' target
platform (gawk, the awk of Amazon Linux 2023) aborts with a fatal
division-by-zero error and prints nothing, so the shell variable receives the
empty string.  (Other awk flavors print `-inf` instead; under no flavor is the
result the `N/A` sentinel.) -/
def legacyImprovement (eni srd : Str) : Str :=
  if eni ≠ naStr ∧ srd ≠ naStr then
    let e := awkNum eni
    let s := awkNum srd
    if qIsZero e then []
    else renderAwk (qMul (qDiv (qSub e s) e) (qOfInt 100))
  else naStr

/-!  ## configuration constants of the UDP benchmark script (part_002 lines 24-35)  -/

def REMOTE_IP_ENI : Str := "192.168.3.10".data
def REMOTE_IP_SRD : Str := "192.168.3.11".data
def REMOTE_PORT_ENI : Nat := 11110
def REMOTE_PORT_SRD : Nat := 11111
def LOCAL_IP_ENI : Str := "192.168.3.20".data
def LOCAL_IP_SRD : Str := "192.168.3.21".data
def BASE_PORT : Nat := 10000
def ITERATIONS : Nat := 1
def REPEAT : Nat := 1

/-- `PORT_ENI_BASE=$((BASE_PORT + i * 2))` (part_002 line 221) -/
def portEni (i : Nat) : Nat := BASE_PORT + i * 2

/-- `PORT_SRD_BASE=$((BASE_PORT + i * 2 + 1))` (part_002 line 222) -/
def portSrd (i : Nat) : Nat := BASE_PORT + i * 2 + 1

/-- `"${OUTPUT_DIR}/eni/iteration_${i}_repeat_${j}_udp.log"` (part_002 line 228) -/
def eniOutputPath (dir : Str) (i j : Nat) : Str :=
  dir ++ "/eni/iteration_".data ++ natDigits i ++ "_repeat_".data ++ natDigits j ++ "_udp.log".data

/-- `"${OUTPUT_DIR}/srd/iteration_${i}_repeat_${j}_udp.log"` (part_002 line 229) -/
def srdOutputPath (dir : Str) (i j : Nat) : Str :=
  dir ++ "/srd/iteration_".data ++ natDigits i ++ "_repeat_".data ++ natDigits j ++ "_udp.log".data

/-- `"${local_ip}:${local_port}->${remote_ip}:${remote_port}/UDP"` -/
def fiveTuple (localIp : Str) (localPort : Nat) (remoteIp : Str) (remotePort : Nat) : Str :=
  localIp ++ [':'] ++ natDigits localPort ++ "->".data ++ remoteIp ++ [':'] ++ natDigits remotePort ++ "/UDP".data

def eniTuple (i : Nat) : Str := fiveTuple LOCAL_IP_ENI (portEni i) REMOTE_IP_ENI REMOTE_PORT_ENI

def srdTuple (i : Nat) : Str := fiveTuple LOCAL_IP_SRD (portSrd i) REMOTE_IP_SRD REMOTE_PORT_SRD

/-!  ## the comparison row (part_002 lines 250-297)  -/

def quoteCh : Str := ['"']

def comma : Str := [',']

/-- the comparison CSV row appended for one trial (part_002 line 297), built
from the two `extract_metrics` command substitutions exactly as the script
does: `cut -d';'` field extraction on the captured values, then the four
improvement computations, then one `echo ... >> "${COMPARISON}"`. -/
def comparisonRow (debug : Bool) (i j : Nat) (ts : Str)
    (eniPath : Str) (eniFile : Option (List Str))
    (srdPath : Str) (srdFile : Option (List Str)) : Str :=
  let em := captureExtract debug eniPath eniFile (eniTuple i)
  let sm := captureExtract debug srdPath srdFile (srdTuple i)
  let et := cutF em 1
  let ea := cutF em 2
  let e50 := cutF em 3
  let e99 := cutF em 4
  let emx := cutF em 5
  let st := cutF sm 1
  let sa := cutF sm 2
  let s50 := cutF sm 3
  let s99 := cutF sm 4
  let smx := cutF sm 5
  let ia := udpImprovement ea sa
  let i50 := udpImprovement e50 s50
  let i99 := udpImprovement e99 s99
  let imx := udpImprovement emx smx
  natDigits i ++ comma ++ natDigits j ++ comma ++ ts ++ ",UDP,".data ++
    quoteCh ++ et ++ quoteCh ++ comma ++ quoteCh ++ st ++ quoteCh ++ comma ++
    ea ++ comma ++ sa ++ comma ++ e50 ++ comma ++ s50 ++ comma ++
    e99 ++ comma ++ s99 ++ comma ++ emx ++ comma ++ smx ++ comma ++
    ia ++ comma ++ i50 ++ comma ++ i99 ++ comma ++ imx

/-!  ## the Run Executor (`run_sockperf`, part_002 lines 92-146)  -/

/-- a single-pattern extraction `$(grep -oP "pat\K[0-9.]+" file || echo "N/A")`
as used inside `run_sockperf` (part_002 lines 122-128) -/
def greplineVal (pat : Str) (lines : List Str) : Str :=
  joinNL (cmdOr (grepCmd pat lines) echoNA).out

/-- the five-line provenance header that `run_sockperf` prepends to the output
file with `sed -i` (part_002 lines 131-135) -/
def annotate (tuple ty : Str) (i j : Nat) (ts : Str) : List Str :=
  [ "# 5-Tuple: ".data ++ tuple,
    "# Test type: ".data ++ ty,
    "# Iteration: ".data ++ natDigits i ++ ", Repeat: ".data ++ natDigits j,
    "# Timestamp: ".data ++ ts,
    "#----------------------------------------------------".data ]

/-- the per-role summary CSV row appended by `run_sockperf` on success
(part_002 lines 139-141) -/
def roleSummaryRow (i j : Nat) (ts localIp : Str) (localPort : Nat) (remoteIp : Str)
    (remotePort : Nat) (captured : List Str) : Str :=
  let avg := greplineVal "avg-lat=".data captured
  let mn := greplineVal "min-lat=".data captured
  let mx := greplineVal "max-lat=".data captured
  let p50 := greplineVal "median-lat=".data captured
  let p99 := greplineVal "percentile 99.00=".data captured
  let p999 := greplineVal "percentile 99.90=".data captured
  let mps := greplineVal "Rate=".data captured
  natDigits i ++ comma ++ natDigits j ++ comma ++ ts ++ comma ++
    localIp ++ comma ++ natDigits localPort ++ comma ++ remoteIp ++ comma ++
    natDigits remotePort ++ ",UDP,".data ++ mps ++ comma ++ avg ++ comma ++
    mn ++ comma ++ mx ++ comma ++ p50 ++ comma ++ p99 ++ comma ++ p999

/-- the summary rows `run_sockperf` appends for one role in one trial: on a
nonzero sockperf exit status the function returns at line 117, before the
metric extraction, the file annotation and the summary-row append, so no row
is logged for that role -/
def run_sockperf_rows (exitStatus : Nat) (i j : Nat) (ts localIp : Str) (localPort : Nat)
    (remoteIp : Str) (remotePort : Nat) (captured : List Str) : List Str :=
  if exitStatus ≠ 0 then []
  else [roleSummaryRow i j ts localIp localPort remoteIp remotePort captured]

/-- the content of the role's output file after `run_sockperf` finishes: the
provenance header is only prepended on the success path -/
def run_sockperf_file (exitStatus : Nat) (tuple ty : Str) (i j : Nat) (ts : Str)
    (captured : List Str) : List Str :=
  if exitStatus ≠ 0 then captured else annotate tuple ty i j ts ++ captured

/-!  ## one paired trial and the whole script run  -/

/-- the observable inputs of one (iteration, repeat) trial: the exit statuses
of the two concurrent sockperf invocations and the text each wrote to its
output file.  One timestamp string stands for the (irrelevant) wall-clock
values used in the rows. -/
structure TrialIn where
  i : Nat
  j : Nat
  ts : Str
  eniExit : Nat
  srdExit : Nat
  eniCaptured : List Str
  srdCaptured : List Str

/-- the rows produced by one trial of the main loop (part_002 lines 224-341):
both `run_sockperf` calls, then `extract_metrics` on both output files, then
the comparison row — which is appended unconditionally -/
structure TrialOut where
  eniRows : List Str
  srdRows : List Str
  compRow : Str

def runTrial (dir : Str) (debug : Bool) (t : TrialIn) : TrialOut :=
  let eniFile := run_sockperf_file t.eniExit (eniTuple t.i) "ENI".data t.i t.j t.ts t.eniCaptured
  let srdFile := run_sockperf_file t.srdExit (srdTuple t.i) "SRD".data t.i t.j t.ts t.srdCaptured
  { eniRows := run_sockperf_rows t.eniExit t.i t.j t.ts LOCAL_IP_ENI (portEni t.i)
      REMOTE_IP_ENI REMOTE_PORT_ENI t.eniCaptured
    srdRows := run_sockperf_rows t.srdExit t.i t.j t.ts LOCAL_IP_SRD (portSrd t.i)
      REMOTE_IP_SRD REMOTE_PORT_SRD t.srdCaptured
    compRow := comparisonRow debug t.i t.j t.ts
      (eniOutputPath dir t.i t.j) (some eniFile)
      (srdOutputPath dir t.i t.j) (some srdFile) }

def eniHeader : Str :=
  "Iteration,Repeat,Timestamp,Source_IP,Source_Port,Dest_IP,Dest_Port,Protocol,MPS,Avg_Latency_usec,Min_Latency_usec,Max_Latency_usec,Percentile_50th,Percentile_99th,Percentile_99.9th".data

def comparisonHeader : Str :=
  "Iteration,Repeat,Timestamp,ENI_5Tuple,SRD_5Tuple,ENI_Avg,SRD_Avg,ENI_p50,SRD_p50,ENI_p99,SRD_p99,Improvement_Avg_Percent,Improvement_p50_Percent,Improvement_p99_Percent".data

/-- `check_sockperf_server` (part_002 lines 55-89): the verdict is the exit
status of the short sockperf probe alone.  The ping performed on failure only
prints diagnostics; its status is accepted as an argument here to make it
manifest that the verdict does not depend on it. -/
def check_sockperf_server (sockperfStatus pingStatus : Nat) : Nat :=
  if sockperfStatus ≠ 0 then 1 else 0

/-- the files and exit status of a whole run of the UDP benchmark script -/
structure ScriptState where
  comparisonCsv : Option (List Str)
  eniSummaryCsv : Option (List Str)
  srdSummaryCsv : Option (List Str)
  summaryReport : Bool
  trialsRun : Nat
  exitCode : Nat

/-- the state right after the header writes of part_002 lines 44-52: all three
CSV files already exist and contain exactly their header row, before the
endpoint probes have run -/
def initState : ScriptState :=
  { comparisonCsv := some [comparisonHeader]
    eniSummaryCsv := some [eniHeader]
    srdSummaryCsv := some [eniHeader]
    summaryReport := false
    trialsRun := 0
    exitCode := 0 }

def appendRows (f : Option (List Str)) (rows : List Str) : Option (List Str) :=
  f.map (· ++ rows)

def appendTrial (dir : Str) (debug : Bool) (st : ScriptState) (t : TrialIn) : ScriptState :=
  let o := runTrial dir debug t
  { st with
    comparisonCsv := appendRows st.comparisonCsv [o.compRow]
    eniSummaryCsv := appendRows st.eniSummaryCsv o.eniRows
    srdSummaryCsv := appendRows st.srdSummaryCsv o.srdRows
    trialsRun := st.trialsRun + 1 }

/-- the whole script (part_002): header writes, the two endpoint probes with
`|| exit 1`, the trial loop, then the summary report.  Individual trial
failures never abort the loop, and the script's last command is an `echo`, so
a completed run exits 0. -/
def runScript (eniProbe eniPing srdProbe srdPing : Nat) (dir : Str) (debug : Bool)
    (trials : List TrialIn) : ScriptState :=
  if check_sockperf_server eniProbe eniPing ≠ 0 then { initState with exitCode := 1 }
  else if check_sockperf_server srdProbe srdPing ≠ 0 then { initState with exitCode := 1 }
  else
    let st := trials.foldl (appendTrial dir debug) initState
    { st with summaryReport := true, exitCode := 0 }

/-!  ## the end-of-run aggregation (part_002 lines 360-367)  -/

/-- `$k` of a comma-separated line (`awk -F,`) -/
def commaField (l : Str) (k : Nat) : Str := (splitOnChar ',' l).getD (k - 1) []

/-- `awk -F, '$4=="UDP" {sum+=$k; count++} END {if(count>0) print sum/count;
else print "N/A"}' comparison.csv`: note that the row filter checks only the
protocol column — rows whose column `k` holds `N/A` (which awk coerces to 0)
are included in both the sum and the count. -/
def aggMean (lines : List Str) (k : Nat) : Str :=
  let p := lines.foldl
    (fun (acc : Q × Nat) l =>
      if commaField l 4 = "UDP".data then (qAdd acc.1 (awkNum (commaField l k)), acc.2 + 1)
      else acc)
    (qOfInt 0, 0)
  if p.2 = 0 then naStr else renderAwk (qDiv p.1 (qOfInt (p.2 : ℤ)))

/-!  ## tool invocations per trial (for the duplicate-invocation question)  -/

inductive Role
  | eni
  | srd
deriving DecidableEq

/-- the externally observable steps of one trial body -/
inductive Step
  | invokeTool (r : Role)
  | extractStep (r : Role)
  | logCompare
deriving DecidableEq

/-- `run_sockperf` contains exactly one invocation of the external sockperf
binary (part_002 line 107; legacy script line 48) -/
def run_sockperf_steps (r : Role) : List Step := [Step.invokeTool r]

/-- the legacy TCP script's trial body (ena_express_latency_benchmark.sh lines
93, 97, 105, 106): `run_sockperf` is executed twice per role — once in the
background to populate the logs, and a second time in a command substitution
to obtain the comparison metrics -/
def legacyTrialSteps : List Step :=
  run_sockperf_steps .eni ++ run_sockperf_steps .srd ++
  run_sockperf_steps .eni ++ run_sockperf_steps .srd ++ [Step.logCompare]

/-- the UDP script's trial body (part_002 lines 234, 238, 250, 251):
`run_sockperf` once per role, then `extract_metrics` re-reads the captured
output files -/
def part002TrialSteps : List Step :=
  run_sockperf_steps .eni ++ run_sockperf_steps .srd ++
  [Step.extractStep .eni, Step.extractStep .srd, Step.logCompare]

def invokeCount (r : Role) (steps : List Step) : Nat :=
  (steps.filter (fun s => s = Step.invokeTool r)).length

/-!  ## helper lemmas  -/

theorem joinNL_single (x : Str) : joinNL [x] = x := by
  simp [joinNL, List.intercalate]

/-!  ## the claims  -/

/-- Claim C1 (code_bug evidence).  The spec says each metric field is produced
by an ordered fallback chain whose first matching pattern wins, with the field
exactly `N/A` when no pattern matches — never empty.  On an existing output
file the awk-based chains cannot behave that way: the first awk command exits
with status 0 even when it matched nothing, so the `||` fallback never fires.
On a file whose only line is `sockperf: ---> percentile 50.00 = 3.100` the
second p50 pattern matches (and would give `3.100`), yet the extracted p50 is
the empty string; likewise a file with no recognizable content yields empty
p50/p99/max fields rather than `N/A`. -/
theorem c1_awk_fallback_dead :
    extractP50 ["sockperf: ---> percentile 50.00 = 3.100".data] = [] ∧
    (awkCmd pat50b ["sockperf: ---> percentile 50.00 = 3.100".data]).out = ["3.100".data] ∧
    extractP50 ["no recognizable content".data] = [] ∧
    extractP99 ["no recognizable content".data] = [] ∧
    extractMax ["no recognizable content".data] = [] ∧
    ([] : Str) ≠ naStr := by
  decide

/-- Claim C6 (code_bug evidence).  In the legacy TCP script each trial executes
`run_sockperf` — and with it the external sockperf tool — twice per role
(background run for the logs, foreground re-run for the comparison metrics),
while the UDP script invokes it exactly once per role and re-reads the captured
file via `extract_metrics`. -/
theorem c6_duplicate_invocation :
    invokeCount .eni legacyTrialSteps = 2 ∧
    invokeCount .srd legacyTrialSteps = 2 ∧
    invokeCount .eni part002TrialSteps = 1 ∧
    invokeCount .srd part002TrialSteps = 1 := by
  decide

/-- Claim C10.  When the raw output file does not exist, `extract_metrics`
returns the record with all four metric fields equal to the `N/A` sentinel and
terminates normally (the early-return branch, part_002 lines 156-160); the
second half checks the individual fields on the standard tuple. -/
theorem c10_missing_file :
    (∀ (path tuple : Str),
      captureExtract false path none tuple = tuple ++ ";N/A;N/A;N/A;N/A".data) ∧
    cutF (captureExtract false "f.log".data none (eniTuple 0)) 2 = naStr ∧
    cutF (captureExtract false "f.log".data none (eniTuple 0)) 3 = naStr ∧
    cutF (captureExtract false "f.log".data none (eniTuple 0)) 4 = naStr ∧
    cutF (captureExtract false "f.log".data none (eniTuple 0)) 5 = naStr := by
  refine ⟨fun path tuple => ?_, by decide, by decide, by decide, by decide⟩
  simp [captureExtract, extract_metrics, joinNL_single]

/-- Claim C2 counterexample.  The claim asserts (also for the legacy TCP
script, whose `AVG_IMPROVEMENT` computation it cites) that a zero baseline
yields the `Unavailable` sentinel.  In the legacy script the computation has no
zero guard: awk aborts with a fatal division-by-zero error, the substitution
captures nothing, and the improvement cell is the empty string — not `N/A`. -/
theorem c2_counterexample :
    legacyImprovement "0".data "18.7".data = [] ∧ ([] : Str) ≠ naStr := by
  decide

/-- Claim C2 (amended).  In the UDP benchmark script the guards hold in full:
an `N/A` or empty operand, or a zero baseline, gives `N/A`, and any numeric
result is exactly the formatted true ratio with a nonzero baseline (never
NaN/infinite/fabricated).  In the legacy TCP script the `N/A`-operand guard
holds, but a zero baseline yields the empty string instead of `N/A`. -/
theorem c2_amended (x y : Str) :
    ((x = naStr ∨ y = naStr ∨ x = [] ∨ y = []) → udpImprovement x y = naStr) ∧
    (qIsZero (awkNum x) → udpImprovement x y = naStr) ∧
    (udpImprovement x y = naStr ∨
      (¬ qIsZero (awkNum x) ∧
        udpImprovement x y =
          fmt2 (qMul (qDiv (qSub (awkNum x) (awkNum y)) (awkNum x)) (qOfInt 100)))) ∧
    ((x = naStr ∨ y = naStr) → legacyImprovement x y = naStr) ∧
    (x ≠ naStr → y ≠ naStr → qIsZero (awkNum x) → legacyImprovement x y = []) := by
  refine ⟨?_, ?_, ?_, ?_, ?_⟩
  · rintro (h | h | h | h) <;> simp [udpImprovement, h]
  · intro hz
    have hz' : (awkNum x).num = 0 := by simpa [qIsZero] using hz
    by_cases hg : (x ≠ naStr ∧ y ≠ naStr ∧ x ≠ [] ∧ y ≠ [])
    · simp [udpImprovement, hg, qPos, hz']
    · simp [udpImprovement, hg]
  · by_cases hg : (x ≠ naStr ∧ y ≠ naStr ∧ x ≠ [] ∧ y ≠ [])
    · by_cases hp : qPos (awkNum x)
      · refine Or.inr ⟨?_, ?_⟩
        · have hp' : 0 < (awkNum x).num := by simpa [qPos] using hp
          simp [qIsZero]
          omega
        · simp [udpImprovement, hg, hp]
      · exact Or.inl (by simp [udpImprovement, hg, hp])
    · exact Or.inl (by simp [udpImprovement, hg])
  · rintro (h | h) <;> simp [legacyImprovement, h]
  · intro hx hy hz
    have hz' : (awkNum x).num = 0 := by simpa [qIsZero] using hz
    simp [legacyImprovement, hx, hy, qIsZero, hz']

/-- Claim C2 witness: the amended theorem applied at concrete operands. -/
theorem c2_witness :
    udpImprovement naStr "5".data = naStr ∧
    udpImprovement "0".data "18.7".data = naStr ∧
    legacyImprovement naStr "5".data = naStr :=
  ⟨(c2_amended naStr "5".data).1 (Or.inl rfl),
   (c2_amended "0".data "18.7".data).2.1 (by decide),
   (c2_amended naStr "5".data).2.2.2.1 (Or.inl rfl)⟩

/-!  ## aggregation lemmas for claim C3  -/

def udpRows (lines : List Str) : List Str :=
  lines.filter (fun l => commaField l 4 = "UDP".data)

def sumVals (k : Nat) (rows : List Str) : Q :=
  rows.foldl (fun a l => qAdd a (awkNum (commaField l k))) (qOfInt 0)

theorem qAdd_zero (q : Q) : qAdd q (qOfInt 0) = q := by
  cases q with
  | mk n d => simp [qAdd, qOfInt]

theorem awkNum_na : awkNum naStr = qOfInt 0 := by decide

theorem aggLoop_eq (k : Nat) (lines : List Str) : ∀ (s : Q) (c : Nat),
    lines.foldl
      (fun (acc : Q × Nat) l =>
        if commaField l 4 = "UDP".data then (qAdd acc.1 (awkNum (commaField l k)), acc.2 + 1)
        else acc)
      (s, c)
    = ((udpRows lines).foldl (fun a l => qAdd a (awkNum (commaField l k))) s,
       c + (udpRows lines).length) := by
  induction lines with
  | nil => intro s c; simp [udpRows]
  | cons l rest ih =>
    intro s c
    by_cases h : commaField l 4 = "UDP".data
    · simp only [List.foldl_cons, h, if_pos, udpRows, List.filter_cons, decide_eq_true_eq,
        if_true, ih]
      simp only [List.length_cons, Prod.mk.injEq]
      exact ⟨trivial, by omega⟩
    · simp only [List.foldl_cons, h, if_neg, udpRows, List.filter_cons, decide_eq_true_eq,
        if_false, ih]

theorem foldl_qAdd_drop_na (k : Nat) : ∀ (rows : List Str) (s : Q),
    rows.foldl (fun a l => qAdd a (awkNum (commaField l k))) s
    = (rows.filter (fun l => commaField l k ≠ naStr)).foldl
        (fun a l => qAdd a (awkNum (commaField l k))) s := by
  intro rows
  induction rows with
  | nil => intro s; rfl
  | cons l rest ih =>
    intro s
    by_cases h : commaField l k = naStr
    · simp [List.filter_cons, h, awkNum_na, qAdd_zero, ih]
    · simp [List.filter_cons, h, ih]

/-- Claim C3 counterexample.  A comparison file with a single UDP row whose
`ENI_Avg` column is `N/A` has zero trials with a numeric value for that metric,
so per the claim the end-of-run mean must be `N/A`; the code instead counts the
row, coerces `N/A` to 0, and reports a mean of `0`. -/
theorem c3_counterexample :
    aggMean
      [comparisonHeader,
       "0,0,T,UDP,qe,qs,N/A,12.5,30,29,40,39,50,49,N/A,3.33,2.50,2.00".data] 7
      = "0".data ∧
    "0".data ≠ naStr := by
  decide

/-- Claim C3 (amended).  The end-of-run mean for a metric column averages over
**all** UDP rows of the comparison file: rows whose cell is `N/A` contribute
nothing to the sum (awk coerces them to 0) but are still counted in the
denominator, and the mean is `N/A` only when the file has no UDP rows at all —
not when it has no qualifying (numeric) rows. -/
theorem c3_amended (lines : List Str) (k : Nat) :
    aggMean lines k =
      if (udpRows lines).length = 0 then naStr
      else renderAwk (qDiv
        (sumVals k ((udpRows lines).filter (fun l => commaField l k ≠ naStr)))
        (qOfInt ((udpRows lines).length : ℤ))) := by
  unfold aggMean sumVals
  rw [aggLoop_eq, foldl_qAdd_drop_na]
  simp

/-- Claim C4 counterexample.  With the enhanced-path (SRD) probe failing, the
run exits 1 with no trials and no summary report — but `comparison.csv` has
already been created (with its header row) by the initialization section that
runs before the probes, so the claim that no `comparison.csv` file is produced
is false. -/
theorem c4_counterexample :
    (runScript 0 0 7 0 "d".data false []).exitCode = 1 ∧
    (runScript 0 0 7 0 "d".data false []).trialsRun = 0 ∧
    (runScript 0 0 7 0 "d".data false []).summaryReport = false ∧
    (runScript 0 0 7 0 "d".data false []).comparisonCsv = some [comparisonHeader] := by
  decide

/-- Claim C4 (amended).  If either endpoint probe fails, the process exits with
code 1 before any trial executes and no `summary_report.txt` is produced; the
diagnostic ping never changes this verdict (the whole run state is independent
of the ping statuses).  However a header-only `comparison.csv` (and the two
per-role summary CSVs) already exist, having been created before the probes. -/
theorem c4_amended (ep p1 es p2 p1' p2' : Nat) (dir : Str) (debug : Bool)
    (trials : List TrialIn) (h : ep ≠ 0 ∨ es ≠ 0) :
    (runScript ep p1 es p2 dir debug trials).exitCode = 1 ∧
    (runScript ep p1 es p2 dir debug trials).trialsRun = 0 ∧
    (runScript ep p1 es p2 dir debug trials).summaryReport = false ∧
    (runScript ep p1 es p2 dir debug trials).comparisonCsv = some [comparisonHeader] ∧
    runScript ep p1 es p2 dir debug trials = runScript ep p1' es p2' dir debug trials := by
  rcases h with h | h
  · simp [runScript, check_sockperf_server, h, initState]
  · by_cases he : ep = 0
    · simp [runScript, check_sockperf_server, he, h, initState]
    · simp [runScript, check_sockperf_server, he, initState]

/-- Claim C4 witness: the amended theorem applied at a concrete failing probe. -/
theorem c4_witness :
    (runScript 0 3 9 4 "w".data false []).exitCode = 1 ∧
    (runScript 0 3 9 4 "w".data false []).summaryReport = false :=
  ⟨(c4_amended 0 3 9 4 5 6 "w".data false [] (Or.inr (by decide))).1,
   (c4_amended 0 3 9 4 5 6 "w".data false [] (Or.inr (by decide))).2.2.1⟩

/-!  ## trial-level bookkeeping for claim C5  -/

theorem runTrials_fields (dir : Str) (d : Bool) : ∀ (trials : List TrialIn) (st : ScriptState),
    (trials.foldl (appendTrial dir d) st).comparisonCsv
        = appendRows st.comparisonCsv (trials.map (fun t => (runTrial dir d t).compRow)) ∧
    (trials.foldl (appendTrial dir d) st).eniSummaryCsv
        = appendRows st.eniSummaryCsv (trials.map (fun t => (runTrial dir d t).eniRows)).flatten ∧
    (trials.foldl (appendTrial dir d) st).trialsRun = st.trialsRun + trials.length ∧
    (trials.foldl (appendTrial dir d) st).summaryReport = st.summaryReport := by
  intro trials
  induction trials with
  | nil =>
    intro st
    simp [appendRows]
  | cons t ts ih =>
    intro st
    have h := ih (appendTrial dir d st t)
    simp only [List.foldl_cons, List.map_cons, List.flatten_cons] at h ⊢
    refine ⟨?_, ?_, ?_, ?_⟩
    · rw [h.1]
      simp only [appendTrial, appendRows, Option.map_map]
      cases st.comparisonCsv <;> simp
    · rw [h.2.1]
      simp only [appendTrial, appendRows, Option.map_map]
      cases st.eniSummaryCsv <;> simp
    · rw [h.2.2.1]
      simp [appendTrial]
      omega
    · rw [h.2.2.2]
      simp [appendTrial]

/-- the Scenario-D trial: the baseline (ENI) sockperf invocation exits nonzero
while the enhanced (SRD) one succeeds -/
def tFail : TrialIn :=
  { i := 2, j := 0, ts := "T".data, eniExit := 1, srdExit := 0,
    eniCaptured := ["sockperf: ERROR".data],
    srdCaptured := ["avg-lat=40.5".data] }

/-- Claim C5 counterexample.  For a trial whose ENI subprocess exits nonzero,
`run_sockperf` returns before its summary-row append, so **no** row for that
(iteration, repeat) appears in the failing role's per-role summary CSV — and in
the comparison row the failing role's p50 column is the empty string, not
`N/A`.  Both facts contradict the claim. -/
theorem c5_counterexample :
    (runTrial "d".data false tFail).eniRows = [] ∧
    commaField ((runTrial "d".data false tFail).compRow) 9 = [] ∧
    ([] : Str) ≠ naStr := by
  decide

/-- Claim C5 (amended).  When both probes pass, the run always completes: exit
code 0, the summary is rendered, every trial — failed or not — appends exactly
one comparison row, and the per-role summary CSV receives the concatenation of
the per-trial row lists; for a trial whose role subprocess exited nonzero that
role's row list is empty (the trial is dropped from the per-role log), and in
the comparison row the failing role's average is `N/A` while its p50 is empty
(instance: the Scenario-D trial). -/
theorem c5_amended :
    (∀ (p1 p2 : Nat) (dir : Str) (d : Bool) (trials : List TrialIn),
      (runScript 0 p1 0 p2 dir d trials).exitCode = 0 ∧
      (runScript 0 p1 0 p2 dir d trials).summaryReport = true ∧
      (runScript 0 p1 0 p2 dir d trials).trialsRun = trials.length ∧
      (runScript 0 p1 0 p2 dir d trials).comparisonCsv
        = some (comparisonHeader :: trials.map (fun t => (runTrial dir d t).compRow)) ∧
      (runScript 0 p1 0 p2 dir d trials).eniSummaryCsv
        = some (eniHeader :: (trials.map (fun t => (runTrial dir d t).eniRows)).flatten)) ∧
    (∀ (dir : Str) (d : Bool) (t : TrialIn), t.eniExit ≠ 0 → (runTrial dir d t).eniRows = []) ∧
    commaField ((runTrial "d".data false tFail).compRow) 7 = naStr := by
  refine ⟨?_, ?_, by decide⟩
  · intro p1 p2 dir d trials
    have h := runTrials_fields dir d trials initState
    simp [runScript, check_sockperf_server, initState, appendRows] at h ⊢
    exact ⟨h.2.2.1, h.1, h.2.1⟩
  · intro dir d t h
    simp [runTrial, run_sockperf_rows, h]

/-- Claim C5 witness: the amended theorem applied at the Scenario-D trial. -/
theorem c5_witness : (runTrial "w".data true tFail).eniRows = [] :=
  c5_amended.2.1 "w".data true tFail (by decide)

/-!  ## extraction lemmas for claim C7  -/

theorem grepScanF_nil_of_no_occ (pat : Str) :
    ∀ (fuel : Nat) (cs : Str), hasOcc pat cs = false → grepScanF pat fuel cs = [] := by
  intro fuel
  induction fuel with
  | zero => intro cs h; rfl
  | succ n ih =>
    intro cs h
    cases cs with
    | nil => rfl
    | cons c rest =>
      have h2 : pat.isPrefixOf (c :: rest) = false ∧ hasOcc pat rest = false := by
        simpa [hasOcc, Bool.or_eq_false_iff] using h
      simp [grepScanF, h2.1, ih rest h2.2]

theorem grepScan_nil_of_no_occ (pat cs : Str) (h : hasOcc pat cs = false) :
    grepScan pat cs = [] :=
  grepScanF_nil_of_no_occ pat cs.length cs h

theorem flatten_map_eq_nil {α β : Type} (f : α → List β) :
    ∀ (ls : List α), (∀ l ∈ ls, f l = []) → (ls.map f).flatten = [] := by
  intro ls
  induction ls with
  | nil => intro _; rfl
  | cons a rest ih =>
    intro h
    simp [h a (by simp), ih (fun l hl => h l (by simp [hl]))]

theorem filter_eq_nil_of (p : Str → Bool) :
    ∀ (ls : List Str), (∀ l ∈ ls, p l = false) → ls.filter p = [] := by
  intro ls
  induction ls with
  | nil => intro _; rfl
  | cons a rest ih =>
    intro h
    simp [List.filter_cons, h a (by simp), ih (fun l hl => h l (by simp [hl]))]

theorem grep_ms_structure (pat : Str) (pre mid suf : List Str) (la lb : Str)
    (h1 : ∀ l ∈ pre, grepScan pat l = []) (h2 : ∀ l ∈ mid, grepScan pat l = [])
    (h3 : ∀ l ∈ suf, grepScan pat l = []) :
    ((pre ++ la :: mid ++ lb :: suf).map (grepScan pat)).flatten
      = grepScan pat la ++ grepScan pat lb := by
  simp [List.map_append, List.flatten_append, flatten_map_eq_nil _ pre h1,
    flatten_map_eq_nil _ mid h2, flatten_map_eq_nil _ suf h3]

theorem filter_structure (p : Str → Bool) (pre mid suf : List Str) (la lb : Str)
    (h1 : ∀ l ∈ pre, p l = false) (h2 : ∀ l ∈ mid, p l = false)
    (h3 : ∀ l ∈ suf, p l = false) (hla : p la = false) (hlb : p lb = true) :
    (pre ++ la :: mid ++ lb :: suf).filter p = [lb] := by
  simp [List.filter_append, List.filter_cons, hla, hlb, filter_eq_nil_of p pre h1,
    filter_eq_nil_of p mid h2, filter_eq_nil_of p suf h3]

/-- the Scenario-A fragment line carrying `avg-lat=35.421` -/
def lineA : Str := "sockperf: ---> avg-lat=35.421 (std-dev=0.122)".data

/-- the Scenario-A percentile line -/
def lineB : Str := "sockperf: ---> percentile 50.000 = 34.912".data

/-- Claim C7.  Any raw output whose lines consist of the two Scenario-A
fragments surrounded by arbitrary text that contains neither an `avg-lat=`
occurrence nor the p50 percentile label yields average latency `35.421` and
p50 `34.912`. -/
theorem c7_scenario_a (pre mid suf : List Str)
    (hA : ∀ l ∈ pre ++ mid ++ suf, hasOcc "avg-lat=".data l = false)
    (hP : ∀ l ∈ pre ++ mid ++ suf, hasOcc pat50a l = false) :
    extractAvg (pre ++ lineA :: mid ++ lineB :: suf) = "35.421".data ∧
    extractP50 (pre ++ lineA :: mid ++ lineB :: suf) = "34.912".data := by
  constructor
  · have hpre : ∀ l ∈ pre, grepScan "avg-lat=".data l = [] :=
      fun l hl => grepScan_nil_of_no_occ _ _ (hA l (by simp [hl]))
    have hmid : ∀ l ∈ mid, grepScan "avg-lat=".data l = [] :=
      fun l hl => grepScan_nil_of_no_occ _ _ (hA l (by simp [hl]))
    have hsuf : ∀ l ∈ suf, grepScan "avg-lat=".data l = [] :=
      fun l hl => grepScan_nil_of_no_occ _ _ (hA l (by simp [hl]))
    have hms : ((pre ++ lineA :: mid ++ lineB :: suf).map (grepScan "avg-lat=".data)).flatten
        = ["35.421".data] := by
      rw [grep_ms_structure _ _ _ _ _ _ hpre hmid hsuf]
      decide
    unfold extractAvg avgCapture grepCmd
    rw [hms]
    simp [cmdOr, joinNL_single]
  · have hflt : (pre ++ lineA :: mid ++ lineB :: suf).filter (fun l => hasOcc pat50a l)
        = [lineB] := by
      apply filter_structure
      · exact fun l hl => hP l (by simp [hl])
      · exact fun l hl => hP l (by simp [hl])
      · exact fun l hl => hP l (by simp [hl])
      · decide
      · decide
    unfold extractP50 p50Capture awkCmd
    rw [hflt]
    simp [cmdOr, joinNL_single]
    decide

/-- Claim C7 witness: the theorem applied with no surrounding text. -/
theorem c7_witness :
    extractAvg ([] ++ lineA :: [] ++ lineB :: []) = "35.421".data ∧
    extractP50 ([] ++ lineA :: [] ++ lineB :: []) = "34.912".data :=
  c7_scenario_a [] [] [] (by simp) (by simp)

/-- Claim C8 (code_bug evidence).  `debug_echo` writes to stdout inside
`extract_metrics`, whose stdout is captured by a command substitution; with
`--debug` the captured metrics variable therefore contains all the DEBUG lines,
and the `cut`-parsed fields and the appended comparison CSV row differ from the
non-debug run on the very same raw output files — diagnostic mode does alter
the produced artifact. -/
theorem c8_debug_alters_artifacts :
    comparisonRow true 0 0 "T".data
        "pe".data (some ["avg-lat=35.421".data]) "ps".data (some ["avg-lat=40.5".data])
      ≠ comparisonRow false 0 0 "T".data
        "pe".data (some ["avg-lat=35.421".data]) "ps".data (some ["avg-lat=40.5".data]) ∧
    cutF (captureExtract true "pe".data (some ["avg-lat=35.421".data]) (eniTuple 0)) 2
      ≠ cutF (captureExtract false "pe".data (some ["avg-lat=35.421".data]) (eniTuple 0)) 2 := by
  decide

/-- Claim C9.  Baseline local ports (`BASE_PORT + 2i`, even offsets) and
enhanced local ports (`BASE_PORT + 2i' + 1`, odd offsets) can never collide,
each role's port is injective across iterations, and the two roles' raw-output
log paths differ for every trial. -/
theorem c9_ports_paths (i i' j : Nat) (dir : Str) :
    portEni i ≠ portSrd i' ∧
    (i ≠ i' → portEni i ≠ portEni i' ∧ portSrd i ≠ portSrd i') ∧
    eniOutputPath dir i j ≠ srdOutputPath dir i j := by
  refine ⟨?_, fun h => ⟨?_, ?_⟩, ?_⟩
  · intro he
    simp [portEni, portSrd, BASE_PORT] at he
    omega
  · intro he
    simp [portEni, BASE_PORT] at he
    omega
  · intro he
    simp [portSrd, BASE_PORT] at he
    omega
  · intro he
    unfold eniOutputPath srdOutputPath at he
    simp only [List.append_assoc] at he
    have h2 := List.append_cancel_left he
    have h3 := congrArg (fun l => l[1]?) h2
    simp only at h3
    rw [List.getElem?_append_left (by decide), List.getElem?_append_left (by decide)] at h3
    exact absurd h3 (by decide)

/-- Claim C9 witness: concrete ports and paths. -/
theorem c9_witness :
    portEni 0 ≠ portEni 1 ∧ portSrd 0 ≠ portSrd 1 ∧ portEni 0 ≠ portSrd 0 :=
  ⟨((c9_ports_paths 0 1 0 []).2.1 (by decide)).1,
   ((c9_ports_paths 0 1 0 []).2.1 (by decide)).2,
   (c9_ports_paths 0 0 0 []).1⟩
